import Mathlib

/-!
Shallow embedding of `src/bokeh-models/src/lib.rs` (rust-bokeh), the
client-side Bokeh model library: JSON values (`serde_json::Value`),
the `ToBokeh` capability, the `ColumnDataSource`, glyph/layout/tool
variants, the `Plot`/`Document` builders with their `validate`
transitions, and the wire serializer `to_bokeh_json`.

Conventions of the embedding:
* `serde_json::Value` becomes the inductive `Value` below.  serde_json's
  default map is a `BTreeMap` (keys iterated in sorted order); every
  object literal in the source happens to list its keys already in
  sorted order, so representing objects as the association list written
  in the source is faithful.
* `f64` column entries are never inspected by any code path in the
  library (they are stored and, at most, re-emitted); we carry them as
  `Int`, which keeps every definition decidable.
* `u32` fields (`min_border`, `size`) are carried as `Nat`; the library
  performs no arithmetic on them.
* `failure::Error` values are created only through `format_err!` with a
  fixed message, so errors are carried as the literal message `String`
  inside `Except`.
* The Rust reference `&'s ColumnDataSource` is carried by value: none of
  the verified claims depends on pointer identity.
-/

namespace RustBokeh

/-- Embedding of `serde_json::Value`. -/
inductive Value where
  | null : Value
  | bool (b : Bool) : Value
  | num (n : Int) : Value
  | str (s : String) : Value
  | arr (elems : List Value) : Value
  | obj (fields : List (String × Value)) : Value

namespace Value

/-- Rust `Value::is_object`. -/
def isObject : Value → Bool
  | .obj _ => true
  | _ => false

/-- Look a key up in a JSON object (`value.get(key)` on objects,
`None` on any other variant). -/
def getKey : Value → String → Option Value
  | .obj fields, k => (fields.find? (fun f => f.1 = k)).map (fun f => f.2)
  | _, _ => none

/-- The list of keys of a JSON object (empty for non-objects). -/
def keys : Value → List String
  | .obj fields => fields.map (fun f => f.1)
  | _ => []

/-- Whether an object value has the given key. -/
def hasKey (v : Value) (k : String) : Bool :=
  (v.getKey k).isSome

end Value

/-- Hexadecimal digit for `\uXXXX` escapes, as emitted by serde_json. -/
def hexDigit (n : Nat) : Char :=
  if n < 10 then Char.ofNat (48 + n) else Char.ofNat (87 + n)

/-- serde_json escaping of a single character inside a JSON string. -/
def escapeChar (c : Char) : String :=
  if c = '"' then "\\\""
  else if c = '\\' then "\\\\"
  else if c = '\x08' then "\\b"
  else if c = '\x0c' then "\\f"
  else if c = '\n' then "\\n"
  else if c = '\r' then "\\r"
  else if c = '\t' then "\\t"
  else if c.toNat < 32 then
    "\\u00" ++ String.mk [hexDigit (c.toNat / 16), hexDigit (c.toNat % 16)]
  else String.singleton c

/-- serde_json rendering of a string literal, quotes included. -/
def renderString (s : String) : String :=
  "\"" ++ String.join (s.toList.map escapeChar) ++ "\""

mutual

/-- Rust `serde_json::to_string` on a `Value`: the compact rendering with no
extra whitespace. -/
def renderValue : Value → String
  | .null => "null"
  | .bool true => "true"
  | .bool false => "false"
  | .num n => toString n
  | .str s => renderString s
  | .arr elems => "[" ++ renderElems elems ++ "]"
  | .obj fields => "\x7b" ++ renderFields fields ++ "\x7d"

/-- Comma-separated rendering of array elements. -/
def renderElems : List Value → String
  | [] => ""
  | [v] => renderValue v
  | v :: rest => renderValue v ++ "," ++ renderElems rest

/-- Comma-separated rendering of object fields. -/
def renderFields : List (String × Value) → String
  | [] => ""
  | [(k, v)] => renderString k ++ ":" ++ renderValue v
  | (k, v) :: rest => renderString k ++ ":" ++ renderValue v ++ "," ++ renderFields rest

end

/-- Insert-or-overwrite for the association lists standing in for
`std::collections::HashMap` (`HashMap::insert` replaces the value under
an existing key). -/
def mapInsert [DecidableEq κ] (k : κ) (v : α) : List (κ × α) → List (κ × α)
  | [] => [(k, v)]
  | (k', v') :: rest =>
      if k' = k then (k', v) :: rest else (k', v') :: mapInsert k v rest

-- ColumnDataSource

/-- Rust `ColumnDataSource`: columnar data, `HashMap<String, Vec<f64>>`. -/
structure ColumnDataSource where
  columns : List (String × List Int)
deriving Repr, DecidableEq

/-- Rust `ColumnDataSource::new`. -/
def ColumnDataSource.new : ColumnDataSource :=
  { columns := [] }

/-- Rust `ColumnDataSource::add`: insert a column under `key`. -/
def ColumnDataSource.add (s : ColumnDataSource) (key : String) (values : List Int) :
    ColumnDataSource :=
  { columns := mapInsert key values s.columns }

/-- Rust `<ColumnDataSource as ToBokeh>::as_bokeh_value`: the source returns
`json!(null)`. -/
def ColumnDataSource.as_bokeh_value (_ : ColumnDataSource) : Value :=
  .null

/-- Rust `ToBokeh::as_string` for `ColumnDataSource` (the trait's default
method, `to_string(&self.as_bokeh_value())`; `to_string` on a `Value`
never fails, so the `serde_json::Result` is always `Ok`). -/
def ColumnDataSource.as_string (s : ColumnDataSource) : Except String String :=
  .ok (renderValue s.as_bokeh_value)

-- Plot

/-- Rust `Position` for layouts. -/
inductive Position where
  | Below : Position
  | Left : Position
  | Right : Position
  | Above : Position
deriving Repr, DecidableEq

/-- Rust `Circle` marker. -/
structure Circle where
  x : Option String := none
  y : Option String := none
  fill_color : Option String := none
  size : Option Nat := none
  line_color : Option String := none
deriving Repr, DecidableEq

/-- Rust `Circle::new` (`Circle::default()`: all fields `None`). -/
def Circle.new : Circle := {}

/-- Rust `Glyph`: tagged union of the available glyphs. -/
inductive Glyph where
  | Circle (c : Circle) : Glyph
deriving Repr, DecidableEq

/-- Rust `Layout`: the enumerated layout options. -/
inductive Layout where
  | LinearAxis : Layout
deriving Repr, DecidableEq

/-- Rust `Tool`: tools for the plot. -/
inductive Tool where
  | PanTool : Tool
  | WheelZoomTool : Tool
deriving Repr, DecidableEq

/-- Rust `Plot` builder state. -/
structure Plot where
  min_border : Option Nat
  source : Option ColumnDataSource
  glyphs : List Glyph
  layouts : List (Position × Layout)
  tools : List Tool
deriving Repr, DecidableEq

/-- Rust `Plot::new`. -/
def Plot.new : Plot :=
  { min_border := none, source := none, glyphs := [], layouts := [], tools := [] }

/-- Rust `Plot::add_glyph`: binds the data source (last writer wins) and
appends the glyph. -/
def Plot.add_glyph (p : Plot) (source : ColumnDataSource) (glyph : Glyph) : Plot :=
  { p with source := some source, glyphs := p.glyphs ++ [glyph] }

/-- Rust `Plot::add_layout`: inserts/overwrites the layout at `position`. -/
def Plot.add_layout (p : Plot) (position : Position) (layout : Layout) : Plot :=
  { p with layouts := mapInsert position layout p.layouts }

/-- Rust `Plot::add_tool`: appends the tool. -/
def Plot.add_tool (p : Plot) (tool : Tool) : Plot :=
  { p with tools := p.tools ++ [tool] }

/-- Rust `ValidatedPlot`: a plot that has passed validation. -/
structure ValidatedPlot where
  min_border : Option Nat
  source : ColumnDataSource
  glyphs : List Glyph
  layouts : List (Position × Layout)
  tools : List Tool
deriving Repr, DecidableEq

/-- Rust `Plot::validate`: fails with `format_err!("no ColumnDataSource found")`
when no source was bound, otherwise carries every field across. -/
def Plot.validate (p : Plot) : Except String ValidatedPlot :=
  match p.source with
  | none => .error "no ColumnDataSource found"
  | some source =>
      .ok { min_border := p.min_border, source := source,
            glyphs := p.glyphs, layouts := p.layouts, tools := p.tools }

-- BasicTicker / BasicTickFormatter

/-- Rust `BasicTicker`: stateless marker struct. -/
structure BasicTicker where
deriving Repr, DecidableEq

/-- Rust `BasicTicker::new`. -/
def BasicTicker.new : BasicTicker := {}

/-- Rust `<BasicTicker as ToBokeh>::as_bokeh_value`. -/
def BasicTicker.as_bokeh_value (_ : BasicTicker) : Value :=
  .obj [("attributes", .obj []), ("type", .str "BasicTicker")]

/-- Rust `ToBokeh::as_string` for `BasicTicker` (trait default method). -/
def BasicTicker.as_string (t : BasicTicker) : Except String String :=
  .ok (renderValue t.as_bokeh_value)

/-- Rust `BasicTickFormatter`: stateless marker struct. -/
structure BasicTickFormatter where
deriving Repr, DecidableEq

/-- Rust `BasicTickFormatter::new`. -/
def BasicTickFormatter.new : BasicTickFormatter := {}

/-- Rust `<BasicTickFormatter as ToBokeh>::as_bokeh_value`. -/
def BasicTickFormatter.as_bokeh_value (_ : BasicTickFormatter) : Value :=
  .obj [("attributes", .obj []), ("type", .str "BasicTickFormatter")]

/-- Rust `ToBokeh::as_string` for `BasicTickFormatter` (trait default method). -/
def BasicTickFormatter.as_string (f : BasicTickFormatter) : Except String String :=
  .ok (renderValue f.as_bokeh_value)

-- Document

/-- Rust `Document` builder state. -/
structure Document where
  plot : Option Plot
deriving Repr, DecidableEq

/-- Rust `Document::new`. -/
def Document.new : Document :=
  { plot := none }

/-- Rust `Document::add_root`: stores the plot (a second call replaces the
first). -/
def Document.add_root (d : Document) (plot : Plot) : Document :=
  { d with plot := some plot }

/-- Rust `ValidatedDocument`. -/
structure ValidatedDocument where
  plot : ValidatedPlot
deriving Repr, DecidableEq

/-- Rust `Document::validate`: fails with
`format_err!("document requires a plot")` when no root was set, then
validates the contained plot with `?` (propagating its error). -/
def Document.validate (d : Document) : Except String ValidatedDocument :=
  match d.plot with
  | none => .error "document requires a plot"
  | some p =>
      match p.validate with
      | .error e => .error e
      | .ok vp => .ok { plot := vp }

/-- Rust `ValidatedDocument::references`: pushes only the source's
`as_bokeh_value` onto the output vector. -/
def ValidatedDocument.references (d : ValidatedDocument) : List Value :=
  [d.plot.source.as_bokeh_value]

/-- Rust `to_bokeh_json`: builds the wire document from the references, the
title, and the literal version string. -/
def to_bokeh_json (doc : ValidatedDocument) (title : String) : Except String Value :=
  .ok (.obj
    [("roots", .obj [("references", .arr doc.references)]),
     ("title", .str title),
     ("version", .str "1.0.3")])

-- Builder histories
--
-- Several claims quantify over "every Plot builder on which ... was
-- (never) called".  A `Plot` builder is obtained from `Plot::new` by a
-- finite sequence of the mutating operations below (`min_border` is a
-- public field, so a direct write to it is one of the operations).

/-- One mutating operation on a `Plot` builder. -/
inductive PlotOp where
  | addGlyph (source : ColumnDataSource) (glyph : Glyph) : PlotOp
  | addLayout (position : Position) (layout : Layout) : PlotOp
  | addTool (tool : Tool) : PlotOp
  | setMinBorder (b : Option Nat) : PlotOp
deriving Repr, DecidableEq

/-- Apply one builder operation to a `Plot`. -/
def Plot.applyOp (p : Plot) : PlotOp → Plot
  | .addGlyph source glyph => p.add_glyph source glyph
  | .addLayout position layout => p.add_layout position layout
  | .addTool tool => p.add_tool tool
  | .setMinBorder b => { p with min_border := b }

/-- The `Plot` builder reached from `Plot::new` by a sequence of
operations. -/
def Plot.build (ops : List PlotOp) : Plot :=
  ops.foldl Plot.applyOp Plot.new

/-- Whether an operation is an `add_glyph` call. -/
def PlotOp.isAddGlyph : PlotOp → Bool
  | .addGlyph _ _ => true
  | _ => false

/-- The source passed to the last `add_glyph` among `ops`, threading an
accumulator for the source bound before `ops` ran. -/
def lastGlyphSourceFrom (acc : Option ColumnDataSource) (ops : List PlotOp) :
    Option ColumnDataSource :=
  ops.foldl
    (fun acc op =>
      match op with
      | .addGlyph source _ => some source
      | _ => acc)
    acc

/-- The source passed to the last `add_glyph` call of the history. -/
def lastGlyphSource (ops : List PlotOp) : Option ColumnDataSource :=
  lastGlyphSourceFrom none ops

/-- One mutating operation on a `Document` builder. -/
inductive DocumentOp where
  | addRoot (plot : Plot) : DocumentOp
deriving Repr, DecidableEq

/-- Apply one builder operation to a `Document`. -/
def Document.applyOp (d : Document) : DocumentOp → Document
  | .addRoot plot => d.add_root plot

/-- The `Document` builder reached from `Document::new` by a sequence of
operations. -/
def Document.build (ops : List DocumentOp) : Document :=
  ops.foldl Document.applyOp Document.new

/-- The plot passed to the last `add_root` call of the history, i.e. the
root stored in the resulting builder. -/
def lastRootFrom (acc : Option Plot) (ops : List DocumentOp) : Option Plot :=
  ops.foldl (fun _ op => match op with | .addRoot plot => some plot) acc

/-- The root plot of a `Document` builder history. -/
def lastRoot (ops : List DocumentOp) : Option Plot :=
  lastRootFrom none ops

-- Wire-shape predicates (used to state the serialization claims)

/-- The spec's Typed Model Value shape: a JSON object carrying the keys
`attributes` and `type`. -/
def typedModelShape (v : Value) : Bool :=
  v.isObject && v.hasKey "attributes" && v.hasKey "type"

/-- The spec's wire shape for each element of `roots.references`: a JSON
object carrying the keys `id`, `attributes` and `type`. -/
def wireElementShape (v : Value) : Bool :=
  v.isObject && v.hasKey "id" && v.hasKey "attributes" && v.hasKey "type"

/-- Whether the wire document `v` has every `roots.references` element of
the spec's `id`/`attributes`/`type` shape. -/
def referencesWellShaped (v : Value) : Bool :=
  match v.getKey "roots" with
  | some roots =>
      match roots.getKey "references" with
      | some (.arr elems) => elems.all wireElementShape
      | _ => false
  | none => false

-- Helper lemmas on builder histories

/-- Unfolding lemma: one step of `lastGlyphSourceFrom`. -/
theorem lastGlyphSourceFrom_cons (acc : Option ColumnDataSource) (op : PlotOp)
    (rest : List PlotOp) :
    lastGlyphSourceFrom acc (op :: rest) =
      lastGlyphSourceFrom
        (match op with | .addGlyph source _ => some source | _ => acc) rest := by
  cases op <;> rfl

/-- The `source` field after one builder operation. -/
theorem applyOp_source (p : Plot) (op : PlotOp) :
    (p.applyOp op).source =
      match op with | .addGlyph source _ => some source | _ => p.source := by
  cases op <;> rfl

/-- The `source` field of a builder is the source of the last `add_glyph`
call of its history. -/
theorem foldl_applyOp_source (ops : List PlotOp) (p : Plot) :
    (ops.foldl Plot.applyOp p).source = lastGlyphSourceFrom p.source ops := by
  induction ops generalizing p with
  | nil => rfl
  | cons op rest ih =>
      rw [List.foldl_cons, lastGlyphSourceFrom_cons, ih, applyOp_source]

/-- Corollary for builders reached from `Plot::new`. -/
theorem build_source (ops : List PlotOp) :
    (Plot.build ops).source = lastGlyphSource ops :=
  foldl_applyOp_source ops Plot.new

/-- With a bound accumulator, `lastGlyphSourceFrom` stays bound. -/
theorem lastGlyphSourceFrom_some (x : ColumnDataSource) (ops : List PlotOp) :
    ∃ src, lastGlyphSourceFrom (some x) ops = some src := by
  induction ops generalizing x with
  | nil => exact ⟨x, rfl⟩
  | cons op rest ih =>
      rw [lastGlyphSourceFrom_cons]
      cases op with
      | addGlyph source glyph => exact ih source
      | addLayout position layout => exact ih x
      | addTool tool => exact ih x
      | setMinBorder b => exact ih x

/-- An `add_glyph` call anywhere in the history leaves the source bound. -/
theorem lastGlyphSourceFrom_of_mem (acc : Option ColumnDataSource)
    (s : ColumnDataSource) (g : Glyph) (ops : List PlotOp)
    (h : PlotOp.addGlyph s g ∈ ops) :
    ∃ src, lastGlyphSourceFrom acc ops = some src := by
  induction ops generalizing acc with
  | nil => cases h
  | cons op rest ih =>
      rw [lastGlyphSourceFrom_cons]
      cases op with
      | addGlyph source glyph => exact lastGlyphSourceFrom_some source rest
      | addLayout position layout =>
          rcases List.mem_cons.mp h with h1 | h2
          · cases h1
          · exact ih acc h2
      | addTool tool =>
          rcases List.mem_cons.mp h with h1 | h2
          · cases h1
          · exact ih acc h2
      | setMinBorder b =>
          rcases List.mem_cons.mp h with h1 | h2
          · cases h1
          · exact ih acc h2

/-- A history without any `add_glyph` call leaves the accumulator alone. -/
theorem lastGlyphSourceFrom_no_glyph (acc : Option ColumnDataSource)
    (ops : List PlotOp) (h : ∀ op ∈ ops, op.isAddGlyph = false) :
    lastGlyphSourceFrom acc ops = acc := by
  induction ops generalizing acc with
  | nil => rfl
  | cons op rest ih =>
      rw [lastGlyphSourceFrom_cons]
      cases op with
      | addGlyph source glyph =>
          have := h _ (List.mem_cons_self _ _)
          simp [PlotOp.isAddGlyph] at this
      | addLayout position layout =>
          exact ih acc (fun op hop => h op (List.mem_cons_of_mem _ hop))
      | addTool tool =>
          exact ih acc (fun op hop => h op (List.mem_cons_of_mem _ hop))
      | setMinBorder b =>
          exact ih acc (fun op hop => h op (List.mem_cons_of_mem _ hop))

/-- Unfolding of `Plot::validate` when the source is absent. -/
theorem validate_of_source_none (p : Plot) (h : p.source = none) :
    p.validate = .error "no ColumnDataSource found" := by
  unfold Plot.validate
  rw [h]

/-- Unfolding of `Plot::validate` when the source is bound: every other
field is copied across unchanged. -/
theorem validate_of_source_some (p : Plot) (src : ColumnDataSource)
    (h : p.source = some src) :
    p.validate = .ok { min_border := p.min_border, source := src,
                       glyphs := p.glyphs, layouts := p.layouts, tools := p.tools } := by
  unfold Plot.validate
  rw [h]

/-- The root after one `Document` builder operation. -/
theorem foldl_docOp_plot (ops : List DocumentOp) (d : Document) :
    (ops.foldl Document.applyOp d).plot = lastRootFrom d.plot ops := by
  induction ops generalizing d with
  | nil => rfl
  | cons op rest ih =>
      cases op with
      | addRoot plot =>
          rw [List.foldl_cons, ih]
          rfl

/-- The `plot` field of a built `Document` is the last `add_root`
argument. -/
theorem docBuild_plot (ops : List DocumentOp) :
    (Document.build ops).plot = lastRoot ops :=
  foldl_docOp_plot ops Document.new

/-- With a stored root, `lastRootFrom` stays bound. -/
theorem lastRootFrom_some (x : Plot) (ops : List DocumentOp) :
    ∃ p, lastRootFrom (some x) ops = some p := by
  induction ops generalizing x with
  | nil => exact ⟨x, rfl⟩
  | cons op rest ih =>
      cases op with
      | addRoot q =>
          have step : lastRootFrom (some x) (DocumentOp.addRoot q :: rest) =
              lastRootFrom (some q) rest := rfl
          rw [step]
          exact ih q

/-- A `Document` history has no root exactly when it is empty (every
`DocumentOp` is an `add_root`). -/
theorem lastRoot_eq_none_iff (ops : List DocumentOp) :
    lastRoot ops = none ↔ ∀ p, DocumentOp.addRoot p ∉ ops := by
  constructor
  · intro h p hp
    cases ops with
    | nil => cases hp
    | cons op rest =>
        cases op with
        | addRoot q =>
            have step : lastRoot (DocumentOp.addRoot q :: rest) =
                lastRootFrom (some q) rest := rfl
            rw [step] at h
            rcases lastRootFrom_some q rest with ⟨r, hr⟩
            rw [hr] at h
            cases h
  · intro h
    cases ops with
    | nil => rfl
    | cons op rest =>
        cases op with
        | addRoot p => exact absurd (List.mem_cons_self _ _) (h p)

/-- Unfolding of `Document::validate` with no root. -/
theorem docValidate_of_plot_none (d : Document) (h : d.plot = none) :
    d.validate = .error "document requires a plot" := by
  unfold Document.validate
  rw [h]

/-- Unfolding of `Document::validate` with a root: the root plot is
validated and its outcome propagated. -/
theorem docValidate_of_plot_some (d : Document) (p : Plot) (h : d.plot = some p) :
    d.validate =
      match p.validate with
      | .error e => .error e
      | .ok vp => .ok { plot := vp } := by
  unfold Document.validate
  rw [h]

/-- The only error message `Plot::validate` can produce. -/
theorem plot_validate_error_msg (p : Plot) (e : String)
    (h : p.validate = .error e) : e = "no ColumnDataSource found" := by
  unfold Plot.validate at h
  cases hs : p.source with
  | none =>
      rw [hs] at h
      injection h with h
      exact h.symm
  | some src =>
      rw [hs] at h
      cases h

-- Concrete sample data (the spec's running example: columns x=[1,2,3],
-- y=[4,5,6], one Circle glyph bound to x/y, title "demo").

/-- Sample data source with columns `x` and `y`. -/
def sampleSource : ColumnDataSource :=
  (ColumnDataSource.new.add "x" [1, 2, 3]).add "y" [4, 5, 6]

/-- Sample circle glyph bound to the `x`/`y` columns. -/
def sampleGlyph : Glyph :=
  .Circle { Circle.new with x := some "x", y := some "y" }

/-- Sample validated plot over `sampleSource`. -/
def sampleValidatedPlot : ValidatedPlot :=
  { min_border := none, source := sampleSource,
    glyphs := [sampleGlyph], layouts := [], tools := [] }

/-- Sample validated document. -/
def sampleDoc : ValidatedDocument :=
  { plot := sampleValidatedPlot }

/-- The wire JSON the code produces for `sampleDoc` with title "demo":
note the single reference entry is JSON `null`. -/
def demoWire : Value :=
  .obj [("roots", .obj [("references", .arr [Value.null])]),
        ("title", .str "demo"),
        ("version", .str "1.0.3")]

-- Claim theorems

/-- C1: the claim states that every `ToBokeh` implementor that can appear
in the reference graph — including `ColumnDataSource` — returns a JSON
object of shape `attributes`/`type` from `as_bokeh_value`.  The code
returns `json!(null)` for `ColumnDataSource`, which has neither key, so
the claim fails there (while `BasicTicker` and `BasicTickFormatter` do
produce the required shape). -/
theorem C1_columndatasource_untyped :
    ColumnDataSource.new.as_bokeh_value = Value.null ∧
    sampleSource.as_bokeh_value = Value.null ∧
    typedModelShape ColumnDataSource.new.as_bokeh_value = false ∧
    typedModelShape BasicTicker.new.as_bokeh_value = true ∧
    typedModelShape BasicTickFormatter.new.as_bokeh_value = true :=
  ⟨rfl, rfl, by decide, by decide, by decide⟩

/-- C2 counterexample: for the concrete validated document `sampleDoc`
and title "demo", the wire JSON's `roots.references` holds the single
element `null`, which is not an object with keys `id`, `attributes`,
`type` — refuting the element-shape half of the claim. -/
theorem C2_null_reference_element :
    to_bokeh_json sampleDoc "demo" = .ok demoWire ∧
    referencesWellShaped demoWire = false :=
  ⟨rfl, by decide⟩

/-- C2 (amended): for every validated document and title, the wire JSON
is an object with exactly the keys `roots`, `title`, `version`, and
`roots.references` is an array — namely the `references()` vector, whose
elements are the data source's `as_bokeh_value` (JSON `null` in the
current code), not objects with `id`/`attributes`/`type` keys. -/
theorem C2_wire_top_shape (doc : ValidatedDocument) (t : String) :
    ∃ v, to_bokeh_json doc t = .ok v ∧
      v.keys = ["roots", "title", "version"] ∧
      v.getKey "roots" = some (.obj [("references", .arr doc.references)]) := by
  exact ⟨_, rfl, rfl, rfl⟩

/-- C3: a `Plot` builder on which `add_glyph` was never called (so no
data source was ever bound) fails validation with the MissingDataSource
error (`format_err!("no ColumnDataSource found")`); no `ValidatedPlot`
is produced. -/
theorem C3_validate_missing_source (ops : List PlotOp)
    (h : ∀ op ∈ ops, op.isAddGlyph = false) :
    (Plot.build ops).validate = .error "no ColumnDataSource found" := by
  apply validate_of_source_none
  rw [build_source]
  exact lastGlyphSourceFrom_no_glyph none ops h

/-- Witness for C3: a builder history with a layout, a tool and a border
write, but no `add_glyph`, fails validation. -/
theorem C3_witness :
    (Plot.build [PlotOp.addLayout Position.Below Layout.LinearAxis,
                 PlotOp.addTool Tool.PanTool,
                 PlotOp.setMinBorder (some 10)]).validate =
      .error "no ColumnDataSource found" :=
  C3_validate_missing_source _ (by decide)

/-- C4: a `Plot` builder with at least one `add_glyph` call validates
successfully; the `ValidatedPlot` carries the builder's `min_border`,
glyph sequence, layout map and tool list unchanged, and its source is
the data source passed to the last `add_glyph` call. -/
theorem C4_validate_success (ops : List PlotOp) (s : ColumnDataSource)
    (g : Glyph) (h : PlotOp.addGlyph s g ∈ ops) :
    ∃ src, lastGlyphSource ops = some src ∧
      (Plot.build ops).validate =
        .ok { min_border := (Plot.build ops).min_border, source := src,
              glyphs := (Plot.build ops).glyphs,
              layouts := (Plot.build ops).layouts,
              tools := (Plot.build ops).tools } := by
  rcases lastGlyphSourceFrom_of_mem none s g ops h with ⟨src, hsrc⟩
  refine ⟨src, hsrc, ?_⟩
  apply validate_of_source_some
  rw [build_source]
  exact hsrc

/-- Witness for C4: two `add_glyph` calls with different sources; the
builder validates and the last source wins. -/
theorem C4_witness :
    ∃ src,
      lastGlyphSource [PlotOp.addGlyph (ColumnDataSource.new.add "x" [1, 2, 3]) sampleGlyph,
                       PlotOp.addGlyph sampleSource sampleGlyph] = some src ∧
      (Plot.build [PlotOp.addGlyph (ColumnDataSource.new.add "x" [1, 2, 3]) sampleGlyph,
                   PlotOp.addGlyph sampleSource sampleGlyph]).validate =
        .ok { min_border :=
                (Plot.build [PlotOp.addGlyph (ColumnDataSource.new.add "x" [1, 2, 3]) sampleGlyph,
                             PlotOp.addGlyph sampleSource sampleGlyph]).min_border,
              source := src,
              glyphs :=
                (Plot.build [PlotOp.addGlyph (ColumnDataSource.new.add "x" [1, 2, 3]) sampleGlyph,
                             PlotOp.addGlyph sampleSource sampleGlyph]).glyphs,
              layouts :=
                (Plot.build [PlotOp.addGlyph (ColumnDataSource.new.add "x" [1, 2, 3]) sampleGlyph,
                             PlotOp.addGlyph sampleSource sampleGlyph]).layouts,
              tools :=
                (Plot.build [PlotOp.addGlyph (ColumnDataSource.new.add "x" [1, 2, 3]) sampleGlyph,
                             PlotOp.addGlyph sampleSource sampleGlyph]).tools } :=
  C4_validate_success _ sampleSource sampleGlyph
    (List.mem_cons_of_mem _ (List.mem_cons_self _ _))

/-- C5: `Document::validate` fails with the MissingPlot error
(`format_err!("document requires a plot")`) exactly when no root was
ever set via `add_root`; when a root is present it validates that plot,
propagating its error or wrapping the validated plot. -/
theorem C5_document_validate (ops : List DocumentOp) :
    ((Document.build ops).validate = .error "document requires a plot" ↔
      ∀ p, DocumentOp.addRoot p ∉ ops) ∧
    (∀ p, lastRoot ops = some p →
      ((∀ e, p.validate = .error e → (Document.build ops).validate = .error e) ∧
       (∀ vp, p.validate = .ok vp →
          (Document.build ops).validate = .ok { plot := vp }))) := by
  have hplot : (Document.build ops).plot = lastRoot ops := docBuild_plot ops
  constructor
  · constructor
    · intro hv
      rw [← lastRoot_eq_none_iff]
      cases hroot : lastRoot ops with
      | none => rfl
      | some p =>
          have hd := docValidate_of_plot_some (Document.build ops) p
            (by rw [hplot, hroot])
          rw [hd] at hv
          cases hpv : p.validate with
          | error e =>
              rw [hpv] at hv
              have hmsg : e = "no ColumnDataSource found" :=
                plot_validate_error_msg p e hpv
              simp only [] at hv
              injection hv with hv
              rw [hmsg] at hv
              exact absurd hv (by decide)
          | ok vp =>
              rw [hpv] at hv
              cases hv
    · intro h
      apply docValidate_of_plot_none
      rw [hplot]
      exact (lastRoot_eq_none_iff ops).mpr h
  · intro p hroot
    have hd := docValidate_of_plot_some (Document.build ops) p
      (by rw [hplot, hroot])
    constructor
    · intro e he
      rw [hd, he]
    · intro vp hvp
      rw [hd, hvp]

/-- Witness for C5: the empty history fails with the MissingPlot message,
and a history whose root plot has no data source propagates the plot's
MissingDataSource message. -/
theorem C5_witness :
    (Document.build []).validate = .error "document requires a plot" ∧
    (Document.build [DocumentOp.addRoot Plot.new]).validate =
      .error "no ColumnDataSource found" := by
  constructor
  · exact (C5_document_validate []).1.mpr (fun p hp => by cases hp)
  · exact ((C5_document_validate [DocumentOp.addRoot Plot.new]).2 Plot.new rfl).1
      "no ColumnDataSource found" rfl

/-- C6: serialization never fails — `to_bokeh_json` always returns `Ok`
— and the returned object's `title` field is the given title while its
`version` field is the literal string "1.0.3". -/
theorem C6_serialize_ok (doc : ValidatedDocument) (t : String) :
    to_bokeh_json doc t =
      .ok (.obj [("roots", .obj [("references", .arr doc.references)]),
                 ("title", .str t), ("version", .str "1.0.3")]) ∧
    ∀ v, to_bokeh_json doc t = .ok v →
      v.getKey "title" = some (.str t) ∧
      v.getKey "version" = some (.str "1.0.3") := by
  refine ⟨rfl, ?_⟩
  intro v hv
  have hv' : Except.ok (ε := String)
      (Value.obj [("roots", .obj [("references", .arr doc.references)]),
                  ("title", .str t), ("version", .str "1.0.3")]) = .ok v := hv
  injection hv' with hv'
  rw [← hv']
  exact ⟨rfl, rfl⟩

/-- Witness for C6: the wire JSON of the sample document with title
"demo" carries that title and version "1.0.3". -/
theorem C6_witness :
    demoWire.getKey "title" = some (.str "demo") ∧
    demoWire.getKey "version" = some (.str "1.0.3") :=
  (C6_serialize_ok sampleDoc "demo").2 demoWire rfl

/-- C7: `BasicTicker::new().as_bokeh_value()` is exactly the JSON object
with an empty `attributes` object and `type` "BasicTicker", and carries
no `id` field. -/
theorem C7_basic_ticker_value :
    BasicTicker.new.as_bokeh_value =
      .obj [("attributes", .obj []), ("type", .str "BasicTicker")] ∧
    BasicTicker.new.as_bokeh_value.hasKey "id" = false :=
  ⟨rfl, by decide⟩

/-- C8: the representations of the stateless model objects are
deterministic and idempotent: in this pure embedding two calls on the
same object are literally the same term, and — capturing statelessness —
the result does not depend on the instance at all, so any two calls to
`as_bokeh_value`/`as_string` on `BasicTicker`s (resp.
`BasicTickFormatter`s) agree. -/
theorem C8_stateless_deterministic (t t' : BasicTicker)
    (f f' : BasicTickFormatter) :
    (t.as_bokeh_value = t'.as_bokeh_value ∧ t.as_string = t'.as_string) ∧
    (f.as_bokeh_value = f'.as_bokeh_value ∧ f.as_string = f'.as_string) :=
  ⟨⟨rfl, rfl⟩, ⟨rfl, rfl⟩⟩

/-- C9: `references()` returns exactly one element — the
`as_bokeh_value` of the plot's data source — whatever glyphs, layouts
and tools the plot carries. -/
theorem C9_references_only_source (mb : Option Nat) (src : ColumnDataSource)
    (gs : List Glyph) (ls : List (Position × Layout)) (ts : List Tool) :
    (ValidatedDocument.mk (ValidatedPlot.mk mb src gs ls ts)).references =
      [src.as_bokeh_value] ∧
    (ValidatedDocument.mk (ValidatedPlot.mk mb src gs ls ts)).references.length
      = 1 :=
  ⟨rfl, rfl⟩

/-- C10: `add_glyph` leaves `min_border`, `layouts` and `tools`
unchanged, sets `source` to the given data source, and appends the glyph
at the end of the glyph sequence, preserving the prior glyphs in
order. -/
theorem C10_add_glyph_frame (p : Plot) (s : ColumnDataSource) (g : Glyph) :
    (p.add_glyph s g).min_border = p.min_border ∧
    (p.add_glyph s g).layouts = p.layouts ∧
    (p.add_glyph s g).tools = p.tools ∧
    (p.add_glyph s g).source = some s ∧
    (p.add_glyph s g).glyphs = p.glyphs ++ [g] :=
  ⟨rfl, rfl, rfl, rfl, rfl⟩

end RustBokeh
